import Mathlib

/-!
# Verification of the kratos-redis service registry (src/registry)

Shallow embedding of `src/registry/registry.go` and `src/registry/watcher.go`.

The Redis client (go-redis) and the JSON codec (jsoniter) are external
collaborators: they are modelled as oracles / parameters.  Durations
(`time.Duration`) are `Int` nanoseconds, as in Go.  The go-redis `TTL`
command returns a `time.Duration` that is `-2` for an absent key, `-1`
for a key without expiry, and `seconds * 10^9` otherwise.
-/

namespace KratosRedis

/-- One second in nanoseconds (`time.Second`). -/
def timeSecond : Int := 1000000000

/-- Model of `registry.ServiceInstance` of the host framework (ID, Name,
Version, endpoint list, string metadata). -/
structure ServiceInstance where
  id : String
  name : String
  version : String
  endpoints : List String
  metadata : List (String × String)
deriving DecidableEq, Repr

/-- A value returned by the store for one key in a multi-get: either a
present string value or the absent / non-string marker (`nil` reply). -/
inductive RValue where
  | str (s : String)
  | absent
deriving DecidableEq, Repr

/-- Store capability oracle used by the enumeration routine:
`scan cursor pattern count` and `mget keys`, each possibly failing with a
transport error (a `redis.Client` the enumeration loop talks to). -/
structure StoreOps where
  scan : Nat → String → Nat → Except String (List String × Nat)
  mget : List String → Except String (List RValue)

/-- Scan batch size: `defaultScan = 20` (registry.go line 21). -/
def defaultScan : Nat := 20

/-- Registration key: `keyFormat = "%s/%s/%s"` applied to namespace,
service name and instance ID (registry.go line 19). -/
def keyFormat (ns name id : String) : String :=
  ns ++ "/" ++ name ++ "/" ++ id

/-- Watch/discovery prefix: `watcherFormat = "%s/%s"` applied to
namespace and service name (registry.go line 20). -/
def watcherFormat (ns name : String) : String :=
  ns ++ "/" ++ name

/-- The inner value loop of `services` (registry.go lines 157-166): for
each fetched value, a non-string reply is skipped by the type switch; a
string value is decoded with `dec` (jsoniter), a decode error aborts the
whole call, a decoded instance is appended. -/
def decodeBatch (dec : String → Except String ServiceInstance) :
    List RValue → Except String (List ServiceInstance)
  | [] => Except.ok []
  | RValue.absent :: rest => decodeBatch dec rest
  | RValue.str s :: rest =>
    match dec s with
    | Except.error e => Except.error e
    | Except.ok si =>
      match decodeBatch dec rest with
      | Except.error e => Except.error e
      | Except.ok rest' => Except.ok (si :: rest')

/-- The scan loop of `services` (registry.go lines 142-170), with explicit
fuel for the unbounded `for` loop (`none` = fuel exhausted before the loop
finished).  Each iteration: `Scan(cursor, pattern, 20)` (transport error
aborts), stop if the key batch is empty, `MGet(keys)` (transport error
aborts), decode the batch (decode error aborts), append, stop if the
cursor returned to 0. -/
def servicesLoop (st : StoreOps) (dec : String → Except String ServiceInstance)
    (pattern : String) :
    Nat → Nat → List ServiceInstance → Option (Except String (List ServiceInstance))
  | 0, _, _ => none
  | fuel + 1, cursor, items =>
    match st.scan cursor pattern defaultScan with
    | Except.error e => some (Except.error e)
    | Except.ok (keys, next) =>
      if keys = [] then some (Except.ok items)
      else
        match st.mget keys with
        | Except.error e => some (Except.error e)
        | Except.ok vals =>
          match decodeBatch dec vals with
          | Except.error e => some (Except.error e)
          | Except.ok newItems =>
            if next = 0 then some (Except.ok (items ++ newItems))
            else servicesLoop st dec pattern fuel next (items ++ newItems)

/-- Model of `services(ctx, client, key)` (registry.go lines 137-173):
append `"*"` to the key, start the cursor at 0 with an empty accumulator,
and run the scan loop. -/
def services (st : StoreOps) (dec : String → Except String ServiceInstance)
    (key : String) (fuel : Nat) :
    Option (Except String (List ServiceInstance)) :=
  servicesLoop st dec (key ++ "*") fuel 0 []

/-- Model of `Registry.GetService(ctx, serviceName)` (registry.go lines
79-81): `return services(ctx, r.client, serviceName)` — the bare service
name is passed as the enumeration key (the namespace does not appear). -/
def GetService (st : StoreOps) (dec : String → Except String ServiceInstance)
    (serviceName : String) (fuel : Nat) :
    Option (Except String (List ServiceInstance)) :=
  services st dec serviceName fuel

/-- The key a `watcher` is bound to by `Registry.Watch` (registry.go lines
83-86): `fmt.Sprintf(watcherFormat, r.opts.namespace, serviceName)`. -/
def watchKey (ns serviceName : String) : String :=
  watcherFormat ns serviceName

/-- Model of `watcher.Next()` when the ticker fires (watcher.go lines
33-42): `return services(w.ctx, w.client, w.key)` on the watcher's bound
key. -/
def watcherNextTick (st : StoreOps) (dec : String → Except String ServiceInstance)
    (key : String) (fuel : Nat) :
    Option (Except String (List ServiceInstance)) :=
  services st dec key fuel

/-! ## Concrete store model

The Redis store itself is an external collaborator (spec section 6); the
following is its capability contract modelled concretely: an ordered list
of entries, each with a key, a string value and a remaining TTL (an `Int`
duration in nanoseconds, as go-redis reports it). -/

/-- One stored record: key, value, remaining TTL in nanoseconds. -/
structure RedisEntry where
  key : String
  value : String
  ttl : Int
deriving DecidableEq, Repr

/-- Concrete store state: an ordered list of entries. -/
structure RStore where
  entries : List RedisEntry
deriving DecidableEq, Repr

/-- Find the entry stored under a key. -/
def RStore.lookup (s : RStore) (k : String) : Option RedisEntry :=
  s.entries.find? (fun e => e.key == k)

/-- The `TTL key` command as go-redis surfaces it: `-2` (nanoseconds) for
an absent key, otherwise the remaining duration. -/
def RStore.ttlResult (s : RStore) (k : String) : Int :=
  match s.lookup k with
  | none => -2
  | some e => e.ttl

/-- The `Set key value ttl` command: replace the entry if present,
otherwise append it. -/
def RStore.setEntry (s : RStore) (k v : String) (t : Int) : RStore :=
  if (s.lookup k).isSome then
    ⟨s.entries.map (fun e => if e.key == k then ⟨k, v, t⟩ else e)⟩
  else ⟨s.entries ++ [⟨k, v, t⟩]⟩

/-- The `Expire key ttl` command: update the TTL of the entry, leaving
its value untouched; no effect on an absent key. -/
def RStore.expireEntry (s : RStore) (k : String) (t : Int) : RStore :=
  ⟨s.entries.map (fun e => if e.key == k then ⟨e.key, e.value, t⟩ else e)⟩

/-- The `Del key` command: remove the entry. -/
def RStore.delEntry (s : RStore) (k : String) : RStore :=
  ⟨s.entries.filter (fun e => e.key != k)⟩

/-- Prefix check on the character data of two strings. -/
def strIsPrefixOf (p s : String) : Bool :=
  p.data.isPrefixOf s.data

/-- Drop the final character of a pattern (the trailing `"*"`). -/
def stripStar (pattern : String) : String :=
  ⟨pattern.data.dropLast⟩

/-- Redis glob matching restricted to the only pattern shape this code
ever builds, `prefix ++ "*"`: the key matches iff the prefix (the pattern
without its final star) is a prefix of the key. -/
def matchesPrefixPattern (pattern key : String) : Bool :=
  strIsPrefixOf (stripStar pattern) key

/-- The `Scan cursor pattern count` command modelled over the entry list:
the cursor is an index; one call inspects the next `count` entries,
returns the matching keys among them, and the next cursor — `0` (the
start/complete sentinel) once the whole keyspace has been covered. -/
def RStore.scanModel (s : RStore) (cursor : Nat) (pattern : String) (count : Nat) :
    List String × Nat :=
  let window := (s.entries.drop cursor).take count
  let keys := (window.filter (fun e => matchesPrefixPattern pattern e.key)).map RedisEntry.key
  let next := if cursor + count < s.entries.length then cursor + count else 0
  (keys, next)

/-- The `MGet keys` command: each present key maps to its string value,
each missing key to the absent marker. -/
def RStore.mgetModel (s : RStore) (keys : List String) : List RValue :=
  keys.map (fun k =>
    match s.lookup k with
    | some e => RValue.str e.value
    | none => RValue.absent)

/-- The concrete store as a transport-error-free `StoreOps` oracle. -/
def RStore.ops (s : RStore) : StoreOps where
  scan cursor pattern count := Except.ok (s.scanModel cursor pattern count)
  mget keys := Except.ok (s.mgetModel keys)

/-! ## Register / renewal / Deregister -/

/-- A write-side store command issued by the Registry. -/
inductive StoreAction where
  | ttlQuery (key : String)
  | expire (key : String) (ttl : Int)
  | set (key : String) (value : String) (ttl : Int)
  | del (key : String)
deriving DecidableEq, Repr

/-- The renew-or-write decision of `Registry.register` (registry.go lines
116-128) given the TTL query result `res` (a go-redis duration in
nanoseconds): `ttl = ttl + 2*time.Second`; `if res > 1` issue
`Expire(key, ttl)`, else issue `Set(key, value, ttl)`.  Note the literal
`1` in the Go comparison is one *nanosecond* of `time.Duration`. -/
def renewAction (key value : String) (ttl : Int) (res : Int) : StoreAction :=
  let ttl2 := ttl + 2 * timeSecond
  if res > 1 then StoreAction.expire key ttl2 else StoreAction.set key value ttl2

/-- Apply one write-side command to the concrete store. -/
def RStore.applyAction (s : RStore) : StoreAction → RStore
  | StoreAction.ttlQuery _ => s
  | StoreAction.expire k t => s.expireEntry k t
  | StoreAction.set k v t => s.setEntry k v t
  | StoreAction.del k => s.delEntry k

/-- One run of `Registry.register(ctx, key, value, ttl)` against the
concrete store: query the TTL, decide via `renewAction`, apply; returns
the new store and the commands issued in order. -/
def registerStep (s : RStore) (key value : String) (ttl : Int) :
    RStore × List StoreAction :=
  let res := s.ttlResult key
  let a := renewAction key value ttl res
  (s.applyAction a, [StoreAction.ttlQuery key, a])

/-- The Registry's shared scheduler state: its single ticker, its single
cancelable context, and how many detached renewal tasks have been
spawned (one per successful `Register`). -/
structure SchedState where
  tickerStopped : Bool
  cancelled : Bool
  renewalTasks : Nat
deriving DecidableEq, Repr

/-- The scheduler state of a freshly built Registry (`New`). -/
def schedInit : SchedState := ⟨false, false, 0⟩

/-- Model of `Registry.Register(ctx, service)` (registry.go lines 88-114): build
the key `{namespace}/{Name}/{ID}`, serialize with `enc` (jsoniter) —
an encode error returns immediately with nothing written and no task
spawned — then run `register` and spawn one detached renewal task.
Returns (call result, store, scheduler state, commands issued). -/
def Register (ns : String) (ttl : Int)
    (enc : ServiceInstance → Except String String)
    (si : ServiceInstance) (s : RStore) (sched : SchedState) :
    Except String Unit × RStore × SchedState × List StoreAction :=
  let key := keyFormat ns si.name si.id
  match enc si with
  | Except.error e => (Except.error e, s, sched, [])
  | Except.ok value =>
    let step := registerStep s key value ttl
    (Except.ok (), step.1,
      { sched with renewalTasks := sched.renewalTasks + 1 }, step.2)

/-- An observable event of `Registry.Deregister`, in program order. -/
inductive DeregEvent where
  | tickerStop
  | cancel
  | delete (key : String)
deriving DecidableEq, Repr

/-- Model of `Registry.Deregister(ctx, service)` (registry.go lines 130-135):
`r.ticker.Stop()`, then `r.cancel()`, then delete the key
`{namespace}/{Name}/{ID}`; `delErr` models the store's delete reply
(`some e` = transport failure, in which case the store is unchanged).
Returns (call result, store, scheduler state, events in order). -/
def Deregister (ns : String) (si : ServiceInstance) (delErr : Option String)
    (s : RStore) (sched : SchedState) :
    Except String Unit × RStore × SchedState × List DeregEvent :=
  let sched' := { sched with tickerStopped := true, cancelled := true }
  let key := keyFormat ns si.name si.id
  match delErr with
  | some e => (Except.error e, s, sched', [DeregEvent.tickerStop, DeregEvent.cancel, DeregEvent.delete key])
  | none => (Except.ok (), s.delEntry key, sched', [DeregEvent.tickerStop, DeregEvent.cancel, DeregEvent.delete key])

/-! ## Concrete fixtures used by the scenario theorems -/

/-- Instance `i1` of service `orders`. -/
def i1 : ServiceInstance := ⟨"i1", "orders", "1.0", [], []⟩

/-- Instance `i2` of service `orders-v2`. -/
def i2v : ServiceInstance := ⟨"i2", "orders-v2", "1.0", [], []⟩

/-- A decoder (jsoniter stand-in) knowing the single stored value. -/
def demoDec : String → Except String ServiceInstance :=
  fun s => if s = "v1" then Except.ok i1 else Except.error ("unknown: " ++ s)

/-- A store holding one registration under the default namespace. -/
def demoStore : RStore :=
  ⟨[⟨"/microservices/orders/i1", "v1", 62 * timeSecond⟩]⟩

/-- An encoder (jsoniter stand-in) mapping an instance to its ID. -/
def demoEnc : ServiceInstance → Except String String :=
  fun si => Except.ok si.id

/-- Decoder paired with `demoEnc` for the registered value of `i1`. -/
def demoDec2 : String → Except String ServiceInstance :=
  fun s => if s = "i1" then Except.ok i1 else Except.error ("unknown: " ++ s)

/-- Twenty-five registrations of service `orders`, spanning two scan
batches of at most 20 keys. -/
def bigStore : RStore :=
  ⟨(List.range 25).map
    (fun n => ⟨"/ms/orders/i" ++ toString n, "i" ++ toString n, 62 * timeSecond⟩)⟩

/-- Decoder for `bigStore` values. -/
def bigDec : String → Except String ServiceInstance :=
  fun s => Except.ok ⟨s, "orders", "", [], []⟩

/-- The 25 instances held by `bigStore`. -/
def bigExpected : List ServiceInstance :=
  (List.range 25).map (fun n => ⟨"i" ++ toString n, "orders", "", [], []⟩)

/-- A store holding one `orders` and one `orders-v2` registration. -/
def c10Store : RStore :=
  ⟨[⟨"/ms/orders/i1", "a", 62 * timeSecond⟩,
    ⟨"/ms/orders-v2/i2", "b", 62 * timeSecond⟩]⟩

/-- Decoder for `c10Store` values. -/
def c10Dec : String → Except String ServiceInstance :=
  fun s =>
    if s = "a" then Except.ok i1
    else if s = "b" then Except.ok i2v
    else Except.error ("unknown: " ++ s)

/-! ## Helper lemmas -/

/-- Entry lookup after the map that `setEntry` performs on a present key. -/
theorem find?_map_set (l : List RedisEntry) (k v : String) (t : Int) :
    (List.map (fun e => if e.key == k then (⟨k, v, t⟩ : RedisEntry) else e) l).find?
        (fun e => e.key == k)
      = (l.find? (fun e => e.key == k)).map (fun _ => (⟨k, v, t⟩ : RedisEntry)) := by
  induction l with
  | nil => rfl
  | cons e rest ih =>
    rw [List.map_cons]
    by_cases h : (e.key == k) = true
    · rw [if_pos h,
        List.find?_cons_of_pos (p := fun (x : RedisEntry) => x.key == k) _
          (show ((⟨k, v, t⟩ : RedisEntry).key == k) = true from beq_self_eq_true k),
        List.find?_cons_of_pos (p := fun (x : RedisEntry) => x.key == k) _ h]
      rfl
    · rw [if_neg h, List.find?_cons_of_neg (p := fun (x : RedisEntry) => x.key == k) _ h,
        List.find?_cons_of_neg (p := fun (x : RedisEntry) => x.key == k) _ h, ih]

theorem find?_map_expire (l : List RedisEntry) (k : String) (t : Int) :
    (List.map (fun e => if e.key == k then (⟨e.key, e.value, t⟩ : RedisEntry) else e) l).find?
        (fun e => e.key == k)
      = (l.find? (fun e => e.key == k)).map
          (fun e => (⟨e.key, e.value, t⟩ : RedisEntry)) := by
  induction l with
  | nil => rfl
  | cons e rest ih =>
    rw [List.map_cons]
    by_cases h : (e.key == k) = true
    · rw [if_pos h,
        List.find?_cons_of_pos (p := fun (x : RedisEntry) => x.key == k) _
          (show ((⟨e.key, e.value, t⟩ : RedisEntry).key == k) = true from h),
        List.find?_cons_of_pos (p := fun (x : RedisEntry) => x.key == k) _ h]
      rfl
    · rw [if_neg h, List.find?_cons_of_neg (p := fun (x : RedisEntry) => x.key == k) _ h,
        List.find?_cons_of_neg (p := fun (x : RedisEntry) => x.key == k) _ h, ih]

theorem lookup_setEntry_self (s : RStore) (k v : String) (t : Int) :
    (s.setEntry k v t).lookup k = some ⟨k, v, t⟩ := by
  unfold RStore.setEntry RStore.lookup
  by_cases hs : ((s.entries.find? (fun e => e.key == k)).isSome) = true
  · rw [if_pos hs]
    show (List.map (fun e => if e.key == k then (⟨k, v, t⟩ : RedisEntry) else e)
        s.entries).find? (fun e => e.key == k) = some ⟨k, v, t⟩
    rw [find?_map_set]
    cases hfind : s.entries.find? (fun e => e.key == k) with
    | none => rw [hfind] at hs; simp at hs
    | some e => rfl
  · rw [if_neg hs]
    show (s.entries ++ [(⟨k, v, t⟩ : RedisEntry)]).find? (fun e => e.key == k)
        = some ⟨k, v, t⟩
    rw [List.find?_append]
    cases hfind : s.entries.find? (fun e => e.key == k) with
    | none =>
      rw [Option.none_or,
        List.find?_cons_of_pos (p := fun (x : RedisEntry) => x.key == k) _
          (show ((⟨k, v, t⟩ : RedisEntry).key == k) = true from beq_self_eq_true k)]
    | some e => rw [hfind] at hs; simp at hs

theorem lookup_expireEntry_self (s : RStore) (k : String) (t : Int) :
    (s.expireEntry k t).lookup k
      = (s.lookup k).map (fun e => (⟨e.key, e.value, t⟩ : RedisEntry)) := by
  unfold RStore.expireEntry RStore.lookup
  exact find?_map_expire s.entries k t


/-- A transport error on `Scan` aborts the loop with that error. -/
theorem servicesLoop_scan_error (st : StoreOps) (dec : String → Except String ServiceInstance)
    (p e : String) (fuel cursor : Nat) (items : List ServiceInstance)
    (h : st.scan cursor p defaultScan = Except.error e) :
    servicesLoop st dec p (fuel + 1) cursor items = some (Except.error e) := by
  simp [servicesLoop, h]

/-- A transport error on `MGet` aborts the loop with that error. -/
theorem servicesLoop_mget_error (st : StoreOps) (dec : String → Except String ServiceInstance)
    (p e : String) (fuel cursor : Nat) (items : List ServiceInstance)
    (keys : List String) (next : Nat)
    (hscan : st.scan cursor p defaultScan = Except.ok (keys, next))
    (hkeys : keys ≠ [])
    (hmget : st.mget keys = Except.error e) :
    servicesLoop st dec p (fuel + 1) cursor items = some (Except.error e) := by
  simp [servicesLoop, hscan, hkeys, hmget]

/-- A decode error on a fetched batch aborts the loop with that error. -/
theorem servicesLoop_decode_error (st : StoreOps) (dec : String → Except String ServiceInstance)
    (p e : String) (fuel cursor : Nat) (items : List ServiceInstance)
    (keys : List String) (next : Nat) (vals : List RValue)
    (hscan : st.scan cursor p defaultScan = Except.ok (keys, next))
    (hkeys : keys ≠ [])
    (hmget : st.mget keys = Except.ok vals)
    (hdec : decodeBatch dec vals = Except.error e) :
    servicesLoop st dec p (fuel + 1) cursor items = some (Except.error e) := by
  simp [servicesLoop, hscan, hkeys, hmget, hdec]

/-- An empty key batch stops the loop, returning what was accumulated. -/
theorem servicesLoop_empty_batch (st : StoreOps) (dec : String → Except String ServiceInstance)
    (p : String) (fuel cursor : Nat) (items : List ServiceInstance) (next : Nat)
    (hscan : st.scan cursor p defaultScan = Except.ok ([], next)) :
    servicesLoop st dec p (fuel + 1) cursor items = some (Except.ok items) := by
  simp [servicesLoop, hscan]

/-- A cursor returning to the start sentinel stops the loop after its
batch is appended. -/
theorem servicesLoop_cursor_zero (st : StoreOps) (dec : String → Except String ServiceInstance)
    (p : String) (fuel cursor : Nat) (items : List ServiceInstance)
    (keys : List String) (vals : List RValue) (newItems : List ServiceInstance)
    (hscan : st.scan cursor p defaultScan = Except.ok (keys, 0))
    (hkeys : keys ≠ [])
    (hmget : st.mget keys = Except.ok vals)
    (hdec : decodeBatch dec vals = Except.ok newItems) :
    servicesLoop st dec p (fuel + 1) cursor items = some (Except.ok (items ++ newItems)) := by
  simp [servicesLoop, hscan, hkeys, hmget, hdec]

/-- Absent values are skipped wherever they occur in a fetched batch. -/
theorem decodeBatch_skips_absent (dec : String → Except String ServiceInstance)
    (v₁ v₂ : List RValue) :
    decodeBatch dec (v₁ ++ RValue.absent :: v₂) = decodeBatch dec (v₁ ++ v₂) := by
  induction v₁ with
  | nil => rfl
  | cons a rest ih =>
    cases a with
    | absent => simpa [decodeBatch] using ih
    | str s => simp [decodeBatch, ih]

/-- A decode error on a present string value is fatal to the batch. -/
theorem decodeBatch_error_on_str (dec : String → Except String ServiceInstance)
    (s e : String) (rest : List RValue) (h : dec s = Except.error e) :
    decodeBatch dec (RValue.str s :: rest) = Except.error e := by
  simp [decodeBatch, h]

/-- A successful loop run never drops what was already accumulated. -/
theorem servicesLoop_ok_extends (st : StoreOps) (dec : String → Except String ServiceInstance)
    (p : String) :
    ∀ fuel cursor items l,
      servicesLoop st dec p fuel cursor items = some (Except.ok l) → items <+: l := by
  intro fuel
  induction fuel with
  | zero =>
    intro cursor items l h
    simp [servicesLoop] at h
  | succ n ih =>
    intro cursor items l h
    rw [servicesLoop] at h
    cases hscan : st.scan cursor p defaultScan with
    | error e => rw [hscan] at h; simp at h
    | ok kn =>
      obtain ⟨keys, next⟩ := kn
      rw [hscan] at h
      dsimp only at h
      by_cases hk : keys = []
      · rw [if_pos hk] at h
        simp only [Option.some.injEq, Except.ok.injEq] at h
        exact h ▸ List.prefix_rfl
      · rw [if_neg hk] at h
        cases hm : st.mget keys with
        | error e => rw [hm] at h; simp at h
        | ok vals =>
          rw [hm] at h
          dsimp only at h
          cases hd : decodeBatch dec vals with
          | error e => rw [hd] at h; simp at h
          | ok newItems =>
            rw [hd] at h
            dsimp only at h
            by_cases hn : next = 0
            · rw [if_pos hn] at h
              simp only [Option.some.injEq, Except.ok.injEq] at h
              exact h ▸ List.prefix_append items newItems
            · rw [if_neg hn] at h
              exact List.IsPrefix.trans (List.prefix_append items newItems)
                (ih next (items ++ newItems) l h)

/-! ## Oracles used by witnesses -/

/-- An oracle whose every store call fails with a transport error. -/
def failScanOps : StoreOps where
  scan _ _ _ := Except.error "conn reset"
  mget _ := Except.error "conn reset"

/-- An oracle whose scan succeeds but whose multi-get fails. -/
def mgetFailOps : StoreOps where
  scan _ _ _ := Except.ok (["k1"], 0)
  mget _ := Except.error "conn reset"

/-- An oracle returning one key whose value does not decode. -/
def decodeFailOps : StoreOps where
  scan _ _ _ := Except.ok (["k1"], 0)
  mget _ := Except.ok [RValue.str "zzz"]

/-! ## Claims -/

/-- C1: the claim says `GetService` builds the prefix `{namespace}/{name}`
and enumerates under it.  The code (registry.go line 80) passes the bare
service name to `services`, so with the default namespace
`/microservices` and a registration stored at
`/microservices/orders/i1`, `GetService "orders"` scans pattern
`orders*` and returns the empty list, while enumerating the documented
prefix `/microservices/orders` returns the instance. -/
theorem c1_getservice_drops_namespace :
    GetService (RStore.ops demoStore) demoDec "orders" 4 = some (Except.ok []) ∧
    services (RStore.ops demoStore) demoDec (watcherFormat "/microservices" "orders") 4
        = some (Except.ok [i1]) :=
  ⟨rfl, rfl⟩

/-- C2: the claim says a successful `Register` is visible to a subsequent
`GetService` with the same name.  Evaluating the code on the spec's own
scenario (namespace `/ms`, service `orders`, TTL 5s, instance `i1`):
`Register` succeeds and writes `/ms/orders/i1`, yet
`GetService "orders"` returns the empty list, because it scans `orders*`
instead of `/ms/orders*`; enumerating the documented prefix does return
the registered instance. -/
theorem c2_register_then_getservice_misses :
    (Register "/ms" (5 * timeSecond) demoEnc i1 ⟨[]⟩ schedInit).1 = Except.ok () ∧
    (Register "/ms" (5 * timeSecond) demoEnc i1 ⟨[]⟩ schedInit).2.1
        = ⟨[⟨"/ms/orders/i1", "i1", 5 * timeSecond + 2 * timeSecond⟩]⟩ ∧
    GetService (RStore.ops (Register "/ms" (5 * timeSecond) demoEnc i1 ⟨[]⟩ schedInit).2.1)
        demoDec2 "orders" 4 = some (Except.ok []) ∧
    services (RStore.ops (Register "/ms" (5 * timeSecond) demoEnc i1 ⟨[]⟩ schedInit).2.1)
        demoDec2 (watcherFormat "/ms" "orders") 4 = some (Except.ok [i1]) :=
  ⟨rfl, rfl, rfl, rfl⟩

/-- C3 counterexample: with exactly 1 second of TTL remaining (the TTL
query reports `1s = 10^9 ns > 1`), the claim demands a full `Set`
rewriting the value, but the code issues only an `Expire`, leaving the
stored value `"old"` in place. -/
theorem c3_one_second_remaining_counterexample :
    (registerStep ⟨[⟨"k", "old", timeSecond⟩]⟩ "k" "v" (60 * timeSecond)).2
        = [StoreAction.ttlQuery "k",
           StoreAction.expire "k" (60 * timeSecond + 2 * timeSecond)] ∧
    (registerStep ⟨[⟨"k", "old", timeSecond⟩]⟩ "k" "v" (60 * timeSecond)).2
        ≠ [StoreAction.ttlQuery "k",
           StoreAction.set "k" "v" (60 * timeSecond + 2 * timeSecond)] ∧
    (registerStep ⟨[⟨"k", "old", timeSecond⟩]⟩ "k" "v" (60 * timeSecond)).1
        = ⟨[⟨"k", "old", 60 * timeSecond + 2 * timeSecond⟩]⟩ := by
  refine ⟨rfl, ?_, rfl⟩
  decide

/-- C3 (amended): the renew-or-write rule first queries the TTL; it
issues only an `Expire` (value untouched) whenever the reported duration
exceeds 1 *nanosecond* — i.e. for any existing key with positive
remaining TTL, including 1 second — and issues the full `Set` otherwise
(key absent, no expiry, or zero remaining). -/
theorem c3_renew_or_write_amended (s : RStore) (key value : String) (ttl : Int) :
    (s.ttlResult key > 1 →
      (registerStep s key value ttl).2
          = [StoreAction.ttlQuery key,
             StoreAction.expire key (ttl + 2 * timeSecond)] ∧
      ((registerStep s key value ttl).1.lookup key).map RedisEntry.value
          = (s.lookup key).map RedisEntry.value) ∧
    (s.ttlResult key ≤ 1 →
      (registerStep s key value ttl).2
          = [StoreAction.ttlQuery key,
             StoreAction.set key value (ttl + 2 * timeSecond)] ∧
      (registerStep s key value ttl).1.lookup key
          = some ⟨key, value, ttl + 2 * timeSecond⟩) := by
  constructor
  · intro h
    constructor
    · simp only [registerStep, renewAction, if_pos h, RStore.applyAction]
    · simp only [registerStep, renewAction, if_pos h, RStore.applyAction]
      rw [lookup_expireEntry_self]
      cases s.lookup key <;> rfl
  · intro h
    constructor
    · simp only [registerStep, renewAction, if_neg (not_lt.mpr h), RStore.applyAction]
    · simp only [registerStep, renewAction, if_neg (not_lt.mpr h), RStore.applyAction]
      exact lookup_setEntry_self s key value (ttl + 2 * timeSecond)

/-- C3 witness: the amended rule applied to a key with 5 seconds left
(Expire path, value preserved) and to an absent key (Set path). -/
theorem c3_renew_or_write_amended_witness :
    ((registerStep ⟨[⟨"k", "old", 5 * timeSecond⟩]⟩ "k" "v" (60 * timeSecond)).2
        = [StoreAction.ttlQuery "k",
           StoreAction.expire "k" (60 * timeSecond + 2 * timeSecond)] ∧
     ((registerStep ⟨[⟨"k", "old", 5 * timeSecond⟩]⟩ "k" "v" (60 * timeSecond)).1.lookup
          "k").map RedisEntry.value
        = ((⟨[⟨"k", "old", 5 * timeSecond⟩]⟩ : RStore).lookup "k").map RedisEntry.value) ∧
    ((registerStep ⟨[]⟩ "k" "v" (60 * timeSecond)).2
        = [StoreAction.ttlQuery "k",
           StoreAction.set "k" "v" (60 * timeSecond + 2 * timeSecond)] ∧
     (registerStep ⟨[]⟩ "k" "v" (60 * timeSecond)).1.lookup "k"
        = some ⟨"k", "v", 60 * timeSecond + 2 * timeSecond⟩) :=
  ⟨(c3_renew_or_write_amended ⟨[⟨"k", "old", 5 * timeSecond⟩]⟩ "k" "v"
      (60 * timeSecond)).1 (by decide),
   (c3_renew_or_write_amended ⟨[]⟩ "k" "v" (60 * timeSecond)).2 (by decide)⟩

/-- C4: the claim says `Watcher.Next` and `GetService` agree at the same
logical moment.  On a store holding `/microservices/orders/i1`, a
watcher bound by `Watch` (prefix `/microservices/orders`) returns the
instance on its tick, while `GetService "orders"` (bare name, registry.go
line 80) returns the empty list — the two snapshots differ. -/
theorem c4_next_vs_getservice_divergence :
    watcherNextTick (RStore.ops demoStore) demoDec
        (watchKey "/microservices" "orders") 4 = some (Except.ok [i1]) ∧
    GetService (RStore.ops demoStore) demoDec "orders" 4 = some (Except.ok []) ∧
    [i1] ≠ ([] : List ServiceInstance) := by
  refine ⟨rfl, rfl, ?_⟩
  decide

/-- C5: in the enumeration routine, a transport error on `Scan` or
`MGet` aborts immediately with that error; an absent/non-string value
anywhere in a fetched batch is silently skipped; a decode error on a
present string value aborts the whole call; and a successful run never
drops what it has accumulated (the result extends the accumulator). -/
theorem c5_enumeration_error_handling (st : StoreOps)
    (dec : String → Except String ServiceInstance) (p : String) :
    (∀ (e : String) (fuel cursor : Nat) (items : List ServiceInstance),
        st.scan cursor p defaultScan = Except.error e →
        servicesLoop st dec p (fuel + 1) cursor items = some (Except.error e)) ∧
    (∀ (e : String) (fuel cursor : Nat) (items : List ServiceInstance)
        (keys : List String) (next : Nat),
        st.scan cursor p defaultScan = Except.ok (keys, next) → keys ≠ [] →
        st.mget keys = Except.error e →
        servicesLoop st dec p (fuel + 1) cursor items = some (Except.error e)) ∧
    (∀ v₁ v₂ : List RValue,
        decodeBatch dec (v₁ ++ RValue.absent :: v₂) = decodeBatch dec (v₁ ++ v₂)) ∧
    (∀ (s e : String) (rest : List RValue), dec s = Except.error e →
        decodeBatch dec (RValue.str s :: rest) = Except.error e) ∧
    (∀ (e : String) (fuel cursor : Nat) (items : List ServiceInstance)
        (keys : List String) (next : Nat) (vals : List RValue),
        st.scan cursor p defaultScan = Except.ok (keys, next) → keys ≠ [] →
        st.mget keys = Except.ok vals → decodeBatch dec vals = Except.error e →
        servicesLoop st dec p (fuel + 1) cursor items = some (Except.error e)) ∧
    (∀ (fuel cursor : Nat) (items l : List ServiceInstance),
        servicesLoop st dec p fuel cursor items = some (Except.ok l) → items <+: l) :=
  ⟨fun e fuel cursor items h =>
      servicesLoop_scan_error st dec p e fuel cursor items h,
   fun e fuel cursor items keys next h1 h2 h3 =>
      servicesLoop_mget_error st dec p e fuel cursor items keys next h1 h2 h3,
   fun v₁ v₂ => decodeBatch_skips_absent dec v₁ v₂,
   fun s e rest h => decodeBatch_error_on_str dec s e rest h,
   fun e fuel cursor items keys next vals h1 h2 h3 h4 =>
      servicesLoop_decode_error st dec p e fuel cursor items keys next vals h1 h2 h3 h4,
   fun fuel cursor items l h => servicesLoop_ok_extends st dec p fuel cursor items l h⟩

/-- C5 witness: the error-handling theorem applied to concrete failing
oracles (scan failure, multi-get failure, decode failure), to a batch
with an absent value, and to a successful run on the empty store. -/
theorem c5_enumeration_error_handling_witness :
    servicesLoop failScanOps demoDec "p" (0 + 1) 0 [] = some (Except.error "conn reset") ∧
    servicesLoop mgetFailOps demoDec "p" (0 + 1) 0 [] = some (Except.error "conn reset") ∧
    decodeBatch demoDec ([RValue.str "v1"] ++ RValue.absent :: [])
        = decodeBatch demoDec ([RValue.str "v1"] ++ []) ∧
    servicesLoop decodeFailOps demoDec "p" (0 + 1) 0 []
        = some (Except.error "unknown: zzz") ∧
    ([] : List ServiceInstance) <+: [] :=
  ⟨(c5_enumeration_error_handling failScanOps demoDec "p").1 "conn reset" 0 0 [] rfl,
   (c5_enumeration_error_handling mgetFailOps demoDec "p").2.1 "conn reset" 0 0 []
      ["k1"] 0 rfl (by decide) rfl,
   (c5_enumeration_error_handling failScanOps demoDec "p").2.2.1 [RValue.str "v1"] [],
   (c5_enumeration_error_handling decodeFailOps demoDec "p").2.2.2.2.1 "unknown: zzz"
      0 0 [] ["k1"] 0 [RValue.str "zzz"] rfl (by decide) rfl rfl,
   (c5_enumeration_error_handling (RStore.ops ⟨[]⟩) demoDec "p").2.2.2.2.2 1 0 [] [] rfl⟩

/-- C6: `Deregister` unconditionally stops the Registry's shared ticker
and cancels its shared context, in that order, before issuing the delete
of `{namespace}/{Name}/{ID}`; it returns the store's delete error when
the delete fails (store unchanged), and removes the entry on success. -/
theorem c6_deregister_stop_cancel_delete (ns : String) (si : ServiceInstance)
    (delErr : Option String) (s : RStore) (sched : SchedState) :
    (Deregister ns si delErr s sched).2.2.1.tickerStopped = true ∧
    (Deregister ns si delErr s sched).2.2.1.cancelled = true ∧
    (Deregister ns si delErr s sched).2.2.2
        = [DeregEvent.tickerStop, DeregEvent.cancel,
           DeregEvent.delete (keyFormat ns si.name si.id)] ∧
    (∀ e : String, delErr = some e →
        (Deregister ns si delErr s sched).1 = Except.error e ∧
        (Deregister ns si delErr s sched).2.1 = s) ∧
    (delErr = none →
        (Deregister ns si delErr s sched).1 = Except.ok () ∧
        (Deregister ns si delErr s sched).2.1
            = s.delEntry (keyFormat ns si.name si.id)) := by
  cases delErr <;> simp [Deregister]

/-- C6 witness: `Deregister` on a failing delete still reports the
ticker stopped and the context cancelled, and propagates the error. -/
theorem c6_deregister_stop_cancel_delete_witness :
    (Deregister "/ms" i1 (some "conn reset") demoStore schedInit).2.2.1.tickerStopped
        = true ∧
    (Deregister "/ms" i1 (some "conn reset") demoStore schedInit).2.2.1.cancelled
        = true ∧
    (Deregister "/ms" i1 (some "conn reset") demoStore schedInit).1
        = Except.error "conn reset" ∧
    (Deregister "/ms" i1 (some "conn reset") demoStore schedInit).2.1 = demoStore :=
  ⟨(c6_deregister_stop_cancel_delete "/ms" i1 (some "conn reset") demoStore schedInit).1,
   (c6_deregister_stop_cancel_delete "/ms" i1 (some "conn reset") demoStore schedInit).2.1,
   ((c6_deregister_stop_cancel_delete "/ms" i1 (some "conn reset") demoStore
       schedInit).2.2.2.1 "conn reset" rfl).1,
   ((c6_deregister_stop_cancel_delete "/ms" i1 (some "conn reset") demoStore
       schedInit).2.2.2.1 "conn reset" rfl).2⟩

/-- C7: the enumeration starts its cursor at 0, scans with batch size 20
and pattern `prefix ++ "*"`, stops on an empty key batch or when the
cursor returns to 0, and accumulates across batches; with 25 matching
keys spread over two scan batches the result holds all 25 instances. -/
theorem c7_enumeration_batches :
    (∀ (st : StoreOps) (dec : String → Except String ServiceInstance)
        (key : String) (fuel : Nat),
        services st dec key fuel = servicesLoop st dec (key ++ "*") fuel 0 []) ∧
    defaultScan = 20 ∧
    (∀ (st : StoreOps) (dec : String → Except String ServiceInstance)
        (p : String) (fuel cursor : Nat) (items : List ServiceInstance) (next : Nat),
        st.scan cursor p defaultScan = Except.ok ([], next) →
        servicesLoop st dec p (fuel + 1) cursor items = some (Except.ok items)) ∧
    (∀ (st : StoreOps) (dec : String → Except String ServiceInstance)
        (p : String) (fuel cursor : Nat) (items : List ServiceInstance)
        (keys : List String) (vals : List RValue) (newItems : List ServiceInstance),
        st.scan cursor p defaultScan = Except.ok (keys, 0) → keys ≠ [] →
        st.mget keys = Except.ok vals → decodeBatch dec vals = Except.ok newItems →
        servicesLoop st dec p (fuel + 1) cursor items
            = some (Except.ok (items ++ newItems))) ∧
    services (RStore.ops bigStore) bigDec "/ms/orders" 3 = some (Except.ok bigExpected) ∧
    bigExpected.length = 25 :=
  ⟨fun _ _ _ _ => rfl, rfl,
   fun st dec p fuel cursor items next h =>
      servicesLoop_empty_batch st dec p fuel cursor items next h,
   fun st dec p fuel cursor items keys vals newItems h1 h2 h3 h4 =>
      servicesLoop_cursor_zero st dec p fuel cursor items keys vals newItems h1 h2 h3 h4,
   rfl, rfl⟩

/-- C7 witness: the stop conditions applied to the empty store (empty
batch) and the 25-key two-batch scenario evaluated. -/
theorem c7_enumeration_batches_witness :
    servicesLoop (RStore.ops ⟨[]⟩) bigDec "/ms/orders*" (0 + 1) 0 []
        = some (Except.ok []) ∧
    services (RStore.ops bigStore) bigDec "/ms/orders" 3 = some (Except.ok bigExpected) :=
  ⟨c7_enumeration_batches.2.2.1 (RStore.ops ⟨[]⟩) bigDec "/ms/orders*" 0 0 [] 0 rfl,
   c7_enumeration_batches.2.2.2.2.1⟩

/-- C8: when serialization of the instance fails, `Register` returns the
serialization error and nothing else happens: the store is untouched, no
store command (TTL query, Set or Expire) is issued, and no renewal task
is spawned (the scheduler state is unchanged). -/
theorem c8_encode_error_no_effect (ns : String) (ttl : Int)
    (enc : ServiceInstance → Except String String) (si : ServiceInstance)
    (s : RStore) (sched : SchedState) (e : String)
    (h : enc si = Except.error e) :
    Register ns ttl enc si s sched = (Except.error e, s, sched, []) := by
  unfold Register
  rw [h]

/-- C8 witness: a failing encoder leaves the store and scheduler of a
concrete Registry untouched. -/
theorem c8_encode_error_no_effect_witness :
    Register "/microservices" (60 * timeSecond) (fun _ => Except.error "marshal fail")
        i1 demoStore schedInit
      = (Except.error "marshal fail", demoStore, schedInit, []) :=
  c8_encode_error_no_effect "/microservices" (60 * timeSecond)
    (fun _ => Except.error "marshal fail") i1 demoStore schedInit "marshal fail" rfl

/-- C9 counterexample: `Register` does not reject an instance with an
empty Name: it succeeds and writes a record under the key
`/microservices//i1`, whose middle segment is empty. -/
theorem c9_empty_name_accepted_counterexample :
    (Register "/microservices" (60 * timeSecond) (fun _ => Except.ok "v")
        ⟨"i1", "", "", [], []⟩ ⟨[]⟩ schedInit).1 = Except.ok () ∧
    (Register "/microservices" (60 * timeSecond) (fun _ => Except.ok "v")
        ⟨"i1", "", "", [], []⟩ ⟨[]⟩ schedInit).2.1
        = ⟨[⟨"/microservices//i1", "v", 60 * timeSecond + 2 * timeSecond⟩]⟩ ∧
    (Register "/microservices" (60 * timeSecond) (fun _ => Except.ok "v")
        ⟨"i1", "", "", [], []⟩ ⟨[]⟩ schedInit).2.2.2
        = [StoreAction.ttlQuery "/microservices//i1",
           StoreAction.set "/microservices//i1" "v" (60 * timeSecond + 2 * timeSecond)] :=
  ⟨rfl, rfl, rfl⟩

/-- C9 (amended): `Register` performs no validation of Name or ID:
whenever serialization succeeds it returns success and issues the TTL
query and renew-or-write on the key `{namespace}/{Name}/{ID}`, even when
Name or ID is empty (producing a key with an empty segment). -/
theorem c9_no_validation_amended (ns : String) (ttl : Int)
    (enc : ServiceInstance → Except String String) (si : ServiceInstance)
    (s : RStore) (sched : SchedState) (v : String) (h : enc si = Except.ok v) :
    (Register ns ttl enc si s sched).1 = Except.ok () ∧
    (Register ns ttl enc si s sched).2.2.2
        = [StoreAction.ttlQuery (keyFormat ns si.name si.id),
           renewAction (keyFormat ns si.name si.id) v ttl
             (s.ttlResult (keyFormat ns si.name si.id))] := by
  unfold Register
  rw [h]
  exact ⟨rfl, rfl⟩

/-- C9 witness: the amended statement applied to an instance with an
empty Name on a concrete store. -/
theorem c9_no_validation_amended_witness :
    (Register "/microservices" (60 * timeSecond) (fun _ => Except.ok "w")
        ⟨"i1", "", "", [], []⟩ demoStore schedInit).1 = Except.ok () ∧
    (Register "/microservices" (60 * timeSecond) (fun _ => Except.ok "w")
        ⟨"i1", "", "", [], []⟩ demoStore schedInit).2.2.2
        = [StoreAction.ttlQuery (keyFormat "/microservices" "" "i1"),
           renewAction (keyFormat "/microservices" "" "i1") "w" (60 * timeSecond)
             (RStore.ttlResult demoStore (keyFormat "/microservices" "" "i1"))] :=
  c9_no_validation_amended "/microservices" (60 * timeSecond) (fun _ => Except.ok "w")
    ⟨"i1", "", "", [], []⟩ demoStore schedInit "w" rfl

/-- C10: the enumeration pattern is the prefix immediately followed by
`"*"` with no trailing separator, so whenever one service name is a
prefix of another, every registration key of the longer name matches the
shorter name's watch pattern; concretely, enumerating under the prefix
for `orders` also returns the instance of `orders-v2`. -/
theorem c10_prefix_pattern_overlap :
    (∀ ns n₁ n₂ id : String, strIsPrefixOf n₁ n₂ = true →
        matchesPrefixPattern (watcherFormat ns n₁ ++ "*") (keyFormat ns n₂ id) = true) ∧
    services (RStore.ops c10Store) c10Dec (watcherFormat "/ms" "orders") 3
        = some (Except.ok [i1, i2v]) := by
  constructor
  · intro ns n₁ n₂ id h
    unfold matchesPrefixPattern strIsPrefixOf stripStar watcherFormat keyFormat
    unfold strIsPrefixOf at h
    rw [List.isPrefixOf_iff_prefix] at h ⊢
    show ((ns ++ "/" ++ n₁ ++ "*").data.dropLast)
        <+: (ns ++ "/" ++ n₂ ++ "/" ++ id).data
    simp only [String.data_append]
    rw [List.dropLast_concat]
    obtain ⟨t, ht⟩ := h
    refine ⟨t ++ "/".data ++ id.data, ?_⟩
    simp only [List.append_assoc]
    rw [← List.append_assoc n₁.data t, ht]
  · rfl

/-- C10 witness: `orders` is a prefix of `orders-v2`, and the
registration key of `orders-v2` matches the watch pattern of `orders`. -/
theorem c10_prefix_pattern_overlap_witness :
    strIsPrefixOf "orders" "orders-v2" = true ∧
    matchesPrefixPattern (watcherFormat "/ms" "orders" ++ "*")
        (keyFormat "/ms" "orders-v2" "i2") = true :=
  ⟨rfl, c10_prefix_pattern_overlap.1 "/ms" "orders" "orders-v2" "i2" rfl⟩

end KratosRedis
